import Mathlib

/-
Verification of the dialog library (src/src): a shallow embedding of the
dialog stack, focus management and dismissal coordination, with theorems
checking the specified behaviour against the embedded code.

DOM elements are modelled by `Elem` records carrying exactly the fields the
library inspects: whether the object is an `HTMLElement`, the `disabled` and
`hidden` attribute presence (what `element.matches('[disabled], [hidden]')`
tests), the `tabIndex` IDL property, the literal `tabindex` attribute value
(what `getAttribute('tabindex')` returns), and the `data-place-focus` marker.
Element identity (JavaScript reference equality) is modelled by a numeric
`id`; callback identity (reference equality of `close` callbacks) likewise.
-/

namespace DialogLib

/-- String constant for the literal attribute value compared by the initial
focus placement effect (`getAttribute('tabindex') === '-1'`). -/
def negOneStr : String := "-1"

/-- Model of a DOM node as seen by this library. `isHTML` distinguishes
`HTMLElement`s from other nodes (the `instanceof HTMLElement` checks). -/
structure Elem where
  id : Nat
  isHTML : Bool := true
  disabled : Bool := false
  hiddenAttr : Bool := false
  tabIndex : Int := -1
  tabindexAttr : Option String := none
  placeFocusAttr : Bool := false
  deriving Repr, DecidableEq

/-- Embeds `element.matches('[disabled], [hidden]')` from
`isKeyboardFocusable` in src/src/utils.ts. -/
def matchesDisabledOrHidden (e : Elem) : Bool :=
  e.disabled || e.hiddenAttr

/-- Embeds `isKeyboardFocusable` (src/src/utils.ts, lines 12-22). The
argument is `Option Elem`: `none` models `null`/`undefined`, and a `some e`
with `e.isHTML = false` models a node that is not an `HTMLElement`. -/
def isKeyboardFocusable (arg : Option Elem) : Bool :=
  match arg with
  | some e =>
      if e.isHTML then
        if matchesDisabledOrHidden e then false
        else decide (0 ≤ e.tabIndex)
      else false
  | none => false

/-- C7: `isKeyboardFocusable` returns `true` exactly on HTML elements that
match neither `[disabled]` nor `[hidden]` and whose tab index is
non-negative; on `null` and on non-HTML-element arguments it returns
`false`. -/
theorem isKeyboardFocusable_iff :
    ∀ arg : Option Elem, isKeyboardFocusable arg = true ↔
      ∃ e, arg = some e ∧ e.isHTML = true ∧ e.disabled = false ∧
        e.hiddenAttr = false ∧ 0 ≤ e.tabIndex := by
  intro arg
  cases arg with
  | none => simp [isKeyboardFocusable]
  | some e =>
      cases h1 : e.isHTML <;> cases h2 : e.disabled <;>
        cases h3 : e.hiddenAttr <;>
        simp [isKeyboardFocusable, matchesDisabledOrHidden, h1, h2, h3,
          and_assoc]

/-- Model of a mounted dialog subtree: the root element (the `<div>` the
`Body` part renders, held in `dialogRef`) and its descendant elements in
document order. `descendants` embeds `getAllDescendantElements(dialog)`
(src/src/utils.ts, lines 5-7): all descendants, the root excluded. -/
structure DialogDom where
  root : Elem
  descendants : List Elem
  deriving Repr, DecidableEq

/-- Embeds `dialog.querySelector('[data-place-focus]')`: the first
descendant in document order carrying the marker attribute. -/
def explicitInitialFocusTarget (d : DialogDom) : Option Elem :=
  d.descendants.find? (fun x => x.placeFocusAttr)

/-- Embeds `getAllDescendantElements(dialog).filter(isKeyboardFocusable)`. -/
def focusableElements (d : DialogDom) : List Elem :=
  d.descendants.filter (fun x => isKeyboardFocusable (some x))

/-- Outcome of a focus placement effect: the id of the element that
received `.focus()` (if any) and whether the `console.error` diagnostic
was emitted. -/
structure FocusOutcome where
  focused : Option Nat
  diagnostic : Bool
  deriving Repr, DecidableEq

/-- Embeds the implicit part of the initial focus placement effect
(src/src/index.tsx, lines 98-110): focus the first keyboard-focusable
descendant in document order, else emit the diagnostic. -/
def implicitScan (d : DialogDom) : FocusOutcome :=
  match d.descendants.find? (fun x => isKeyboardFocusable (some x)) with
  | some t => { focused := some t.id, diagnostic := false }
  | none => { focused := none, diagnostic := true }

/-- Embeds the initial focus placement effect (src/src/index.tsx, lines
80-110): if the `[data-place-focus]` target is keyboard-focusable, or is an
`HTMLElement` whose literal `tabindex` attribute is `'-1'`, it is focused;
otherwise the implicit document-order scan runs. -/
def placeInitialFocus (d : DialogDom) : FocusOutcome :=
  let target := explicitInitialFocusTarget d
  if isKeyboardFocusable target ||
      (match target with
       | some t => t.isHTML && t.tabindexAttr == some negOneStr
       | none => false) then
    { focused := target.map (fun t => t.id), diagnostic := false }
  else
    implicitScan d

/-- A keyboard event as inspected by the library: its `key` string and the
`shiftKey` modifier. -/
structure KeyEvent where
  key : String
  shiftKey : Bool
  deriving Repr, DecidableEq

/-- Outcome of one run of the `trapFocus` keydown handler: the id of the
element `.focus()` was called on (if any), whether `e.preventDefault()`
ran, and whether the handler threw a `TypeError` by invoking `.focus()` on
`undefined`. -/
structure TrapOutcome where
  focused : Option Nat
  prevented : Bool
  threw : Bool
  deriving Repr, DecidableEq

/-- Embeds the `trapFocus` keydown handler (src/src/index.tsx, lines
141-167). `activeElement` is the id of `document.activeElement` (or `none`
for `null`). The focusable list is recomputed from the live DOM on every
event; `focusableElements[0]` and `focusableElements[length - 1]` are
`undefined` on an empty list, in which case the `=== undefined` edge
comparisons are false but a taken branch calls `.focus()` on `undefined`
and throws. -/
def trapFocus (d : DialogDom) (activeElement : Option Nat)
    (e : KeyEvent) : TrapOutcome :=
  if e.key ≠ "Tab" then { focused := none, prevented := false, threw := false }
  else
    let fs := focusableElements d
    let first := fs.head?
    let last := fs.getLast?
    if !e.shiftKey then
      if (match last with
          | some l => activeElement == some l.id
          | none => false) || activeElement == some d.root.id then
        match first with
        | some f => { focused := some f.id, prevented := true, threw := false }
        | none => { focused := none, prevented := false, threw := true }
      else { focused := none, prevented := false, threw := false }
    else
      if (match first with
          | some f => activeElement == some f.id
          | none => false) || activeElement == some d.root.id then
        match last with
        | some l => { focused := some l.id, prevented := true, threw := false }
        | none => { focused := none, prevented := false, threw := true }
      else { focused := none, prevented := false, threw := false }

/-- One entry of the module-level `dialogStack` map: the dialog's root
element (the map key), the identity of its `close` callback, and the
element that held focus just before the entry was recorded
(`document.activeElement`, `none` for `null`). -/
structure StackEntry where
  root : Nat
  close : Nat
  priorActive : Option Elem
  deriving Repr, DecidableEq

/-- The `dialogStack` map in JavaScript `Map` insertion order: the value
for a key is updated in place on re-`set`, and a fresh key is appended. -/
abbrev DialogStack := List StackEntry

/-- Embeds `dialogStack.set(root, [close, activeElement])` with JavaScript
`Map` semantics: an existing key keeps its insertion position and only its
value is overwritten; a new key is appended last. -/
def stackSet (s : DialogStack) (root close : Nat)
    (prior : Option Elem) : DialogStack :=
  if s.any (fun en => en.root == root) then
    s.map (fun en =>
      if en.root == root then { root := root, close := close, priorActive := prior } else en)
  else s ++ [{ root := root, close := close, priorActive := prior }]

/-- Embeds the "Syncs with the DOM" loop (src/src/index.tsx, lines 71-76):
every entry whose root is not contained in the document is deleted. The
document is modelled as the list of ids of currently attached nodes. -/
def pruneDetached (doc : List Nat) (s : DialogStack) : DialogStack :=
  s.filter (fun en => doc.contains en.root)

/-- Embeds the dialog stack registration effect (src/src/index.tsx, lines
66-77): record or overwrite the entry for this root, capturing the current
active element, then prune entries whose root is detached. -/
def registerDialog (doc : List Nat) (s : DialogStack) (root close : Nat)
    (prior : Option Elem) : DialogStack :=
  pruneDetached doc (stackSet s root close prior)

/-- Embeds `Array.from(dialogStack.values()).at(-1)` (restricted to the
entry): the last surviving entry in insertion order, i.e. the topmost
dialog. -/
def uppermost (s : DialogStack) : Option StackEntry :=
  s.getLast?

/-- Embeds the Escape keydown handler `closeDialog` of one dialog instance
(src/src/index.tsx, lines 178-192). `myClose` is the identity of this
instance's `close` callback; the result tells whether this instance invoked
it. The topmost entry's stored callback is compared by reference identity
to `myClose`; `undefined === close` is false when the stack is empty. -/
def escapeHandler (e : KeyEvent) (s : DialogStack) (myClose : Nat) : Bool :=
  if e.key == "Escape" then
    match (uppermost s).map (fun en => en.close) with
    | some c => c == myClose
    | none => false
  else false

/-- Configuration of one mounted dialog instance as seen by the
outside-click handler: its root id, its `close` callback identity, its
`closeOnClickOutside` flag, and the ids of the nodes `n` for which
`dialog.contains(n)` holds (the root and its descendants). -/
structure InstanceConfig where
  root : Nat
  close : Nat
  closeOnClickOutside : Bool
  containedNodes : List Nat
  deriving Repr, DecidableEq

/-- Embeds the outside-click `closeDialog` handler of one dialog instance
(src/src/index.tsx, lines 195-217), together with its attachment guard:
the listener is only attached when `closeOnClickOutside` is true. `target`
is the id of the click's `e.target` when it is a DOM `Node`, else `none`.
The result tells whether this instance invoked its `close` callback. -/
def clickDismiss (inst : InstanceConfig) (s : DialogStack)
    (target : Option Nat) : Bool :=
  if inst.closeOnClickOutside then
    match target with
    | some t =>
        if !(inst.containedNodes.contains t) then
          match (uppermost s).map (fun en => en.close) with
          | some c => c == inst.close
          | none => false
        else false
    | none => false
  else false

/-- Embeds the final-focus-target computation of the final focus placement
effect (src/src/index.tsx, lines 117-122): an explicitly supplied
`placeFinalFocusAt.current` element wins (element truthiness), else the
`priorActiveElement` stored in the topmost stack entry. -/
def finalFocusTarget (explicit : Option Elem) (s : DialogStack) : Option Elem :=
  match explicit with
  | some t => some t
  | none => (uppermost s).bind (fun en => en.priorActive)

/-- Embeds the teardown of the final focus placement effect
(src/src/index.tsx, lines 123-127): focus the target only if it is still
keyboard-focusable, else do nothing. Returns the id of the focused
element, if any. -/
def placeFinalFocus (explicit : Option Elem) (s : DialogStack) : Option Nat :=
  let target := finalFocusTarget explicit s
  if isKeyboardFocusable target then target.map (fun t => t.id) else none

/-- The props of the `Body` part that the embedded rendering logic
inspects: the two labelling attributes (the other forwarded props do not
influence the hardcoded attributes, which are written after the spread and
therefore always win). -/
structure BodyProps where
  ariaLabel : Option String := none
  ariaLabelledby : Option String := none
  deriving Repr, DecidableEq

/-- The attributes of the root `<div>` the `Body` part renders, plus
whether the missing-label diagnostic was emitted. -/
structure RenderedRoot where
  role : String
  ariaModal : String
  tabIndex : Int
  labelWarning : Bool
  deriving Repr, DecidableEq

/-- Embeds the `<div {...props} aria-modal='true' ... role='dialog'
tabIndex={-1} />` element of `Body` (src/src/parts/body.tsx): `role`,
`aria-modal` and `tabIndex` are written after the prop spread, so they hold
for every rendered root. -/
def renderBodyRoot (props : BodyProps) : RenderedRoot :=
  { role := "dialog"
    ariaModal := "true"
    tabIndex := -1
    labelWarning := props.ariaLabel == none && props.ariaLabelledby == none }

/-- The root `<div>` of `Body` as a DOM element: an `HTMLElement`, neither
disabled nor hidden, with the `tabindex` attribute literally `'-1'` and the
`tabIndex` IDL property of the rendered root. -/
def bodyRootElem (props : BodyProps) (id : Nat) : Elem :=
  { id := id
    isHTML := true
    disabled := false
    hiddenAttr := false
    tabIndex := (renderBodyRoot props).tabIndex
    tabindexAttr := some negOneStr
    placeFocusAttr := false }

/-- The value provided by `DialogContext.Provider`: the shared ref to the
mounted dialog root element (`none` while no node is attached). -/
structure DialogCtx where
  dialogRef : Option Nat
  deriving Repr, DecidableEq

/-- The error message `Body` passes to `useDialogContext`. -/
def contextErrorMessage : String :=
  "Did you forget to wrap <Body> inside <Dialog>?"

/-- Embeds `useDialogContext` (src/src/index.context.ts, lines 12-20):
reading the context outside a provider yields `null` and throws the given
error; inside a provider the context value is returned. -/
def useDialogContext (ctx : Option DialogCtx)
    (errorMessage : String) : Except String DialogCtx :=
  match ctx with
  | none => Except.error errorMessage
  | some v => Except.ok v

/-- Embeds the render of `Body` (src/src/parts/body.tsx): it first reads
the dialog context through `useDialogContext` — a throw there aborts the
render — and otherwise renders the root `<div>`. -/
def renderBody (ctx : Option DialogCtx)
    (props : BodyProps) : Except String RenderedRoot :=
  match useDialogContext ctx contextErrorMessage with
  | Except.error msg => Except.error msg
  | Except.ok _ => Except.ok (renderBodyRoot props)

/-- C10: rendering `Body` with no dialog context provider above it throws
the context error immediately; rendered inside a `Dialog` (a provider in
scope) it does not throw and renders the root normally. -/
theorem body_requires_dialog_context :
    (∀ props : BodyProps,
      renderBody none props = Except.error contextErrorMessage) ∧
    (∀ (ctx : DialogCtx) (props : BodyProps),
      renderBody (some ctx) props = Except.ok (renderBodyRoot props)) := by
  exact ⟨fun _ => rfl, fun _ _ => rfl⟩

/-- C9 counterexample: the root `Body` renders does carry `role='dialog'`
and `aria-modal='true'`, but it is not keyboard-focusable under the
system's own predicate `isKeyboardFocusable` (its tab index is -1), so the
claim's conjunction fails on a concrete rendered root. -/
theorem body_root_not_keyboard_focusable_cex :
    ¬ ((renderBodyRoot ({} : BodyProps)).role = "dialog" ∧
       (renderBodyRoot ({} : BodyProps)).ariaModal = "true" ∧
       isKeyboardFocusable (some (bodyRootElem ({} : BodyProps) 0)) = true) := by
  decide

/-- C9 (amended): every root `Body` renders carries `role='dialog'`,
`aria-modal='true'` and a literal `tabindex='-1'` attribute (tab index -1),
which makes it programmatically focusable and the trap's fallback target by
direct identity comparison; it is however not keyboard-focusable under the
system's focusability predicate, since its tab index is negative. -/
theorem body_root_contract (props : BodyProps) (id : Nat) :
    (renderBodyRoot props).role = "dialog" ∧
    (renderBodyRoot props).ariaModal = "true" ∧
    (renderBodyRoot props).tabIndex = -1 ∧
    (bodyRootElem props id).tabindexAttr = some negOneStr ∧
    isKeyboardFocusable (some (bodyRootElem props id)) = false := by
  exact ⟨rfl, rfl, rfl, rfl, rfl⟩

/-- C5: the final focus target is the explicitly supplied
`placeFinalFocusAt` element when present, else the `priorActiveElement`
stored in the topmost stack entry; the chosen target is focused only when
it is still keyboard-focusable, and otherwise nothing is focused. -/
theorem final_focus_spec (explicit : Option Elem) (s : DialogStack) :
    (∀ t, explicit = some t → finalFocusTarget explicit s = some t) ∧
    (explicit = none →
      finalFocusTarget explicit s =
        (uppermost s).bind (fun en => en.priorActive)) ∧
    (∀ t, finalFocusTarget explicit s = some t →
      isKeyboardFocusable (some t) = true →
      placeFinalFocus explicit s = some t.id) ∧
    (isKeyboardFocusable (finalFocusTarget explicit s) = false →
      placeFinalFocus explicit s = none) := by
  refine ⟨?_, ?_, ?_, ?_⟩
  · rintro t rfl; rfl
  · rintro rfl; rfl
  · intro t ht hf
    simp [placeFinalFocus, ht, hf]
  · intro hf
    simp [placeFinalFocus, hf]

/-- C5 witness: with an explicitly supplied, still-focusable target (id 5,
tab index 0) and an empty stack, teardown focuses that target. -/
theorem final_focus_spec_w :
    placeFinalFocus (some { id := 5, tabIndex := 0 }) [] = some 5 :=
  (final_focus_spec (some { id := 5, tabIndex := 0 }) []).2.2.1
    { id := 5, tabIndex := 0 } rfl (by decide)

/-- C4: on mount of an open dialog, a `[data-place-focus]` descendant that
is keyboard-focusable or carries the literal attribute `tabindex='-1'`
receives initial focus and the procedure stops; a marker descendant
qualifying by neither route falls through to the implicit scan, as does
the absence of any marker; the implicit scan focuses the first
keyboard-focusable descendant in document order, and if none exists the
diagnostic is emitted with focus unchanged. -/
theorem initial_focus_spec (d : DialogDom) :
    (∀ t, explicitInitialFocusTarget d = some t →
      (isKeyboardFocusable (some t) = true ∨
        (t.isHTML = true ∧ t.tabindexAttr = some negOneStr)) →
      placeInitialFocus d = { focused := some t.id, diagnostic := false }) ∧
    (∀ t, explicitInitialFocusTarget d = some t →
      isKeyboardFocusable (some t) = false →
      ¬ (t.isHTML = true ∧ t.tabindexAttr = some negOneStr) →
      placeInitialFocus d = implicitScan d) ∧
    (explicitInitialFocusTarget d = none →
      placeInitialFocus d = implicitScan d) ∧
    (∀ f, d.descendants.find? (fun x => isKeyboardFocusable (some x)) = some f →
      implicitScan d = { focused := some f.id, diagnostic := false }) ∧
    (d.descendants.find? (fun x => isKeyboardFocusable (some x)) = none →
      implicitScan d = { focused := none, diagnostic := true }) := by
  refine ⟨?_, ?_, ?_, ?_, ?_⟩
  · intro t ht hq
    rcases hq with hf | ⟨hh, ha⟩
    · simp [placeInitialFocus, ht, hf]
    · simp [placeInitialFocus, ht, hh, ha]
  · intro t ht hf hn
    have hb : (t.isHTML && t.tabindexAttr == some negOneStr) = false := by
      cases hh : t.isHTML
      · simp
      · cases hx : t.tabindexAttr == some negOneStr
        · simp
        · exact absurd ⟨hh, by simpa using hx⟩ hn
    simp [placeInitialFocus, ht, hf, hb]
  · intro ht
    simp [placeInitialFocus, ht, isKeyboardFocusable]
  · intro f hf
    simp [implicitScan, hf]
  · intro hf
    simp [implicitScan, hf]

/-- C4 witness: a dialog whose only descendant carries the marker and is a
keyboard-focusable element (id 1, tab index 0) places initial focus on it
with no diagnostic. -/
theorem initial_focus_spec_w :
    placeInitialFocus
      { root := { id := 0 },
        descendants := [{ id := 1, tabIndex := 0, placeFocusAttr := true }] } =
      { focused := some 1, diagnostic := false } :=
  (initial_focus_spec
      { root := { id := 0 },
        descendants := [{ id := 1, tabIndex := 0, placeFocusAttr := true }] }).1
    { id := 1, tabIndex := 0, placeFocusAttr := true }
    (by decide) (Or.inl (by decide))

/-- Entries of a stack whose stored close callbacks are pairwise distinct
(reference identity of distinct callback objects) are determined by their
close callback. -/
theorem close_determines_entry {s : DialogStack}
    (hnd : (s.map (fun en => en.close)).Nodup) :
    ∀ x ∈ s, ∀ y ∈ s, x.close = y.close → x = y := by
  intro x hx y hy hxy
  exact List.inj_on_of_nodup_map hnd hx hy hxy

/-- C1: on an Escape keydown with pairwise-distinct stored close callbacks,
the instance whose callback is reference-identical to the topmost entry's
stored callback invokes it, every other entry's callback is not invoked,
and with an empty stack no callback is invoked at all. -/
theorem escape_dismisses_topmost_only (s : DialogStack)
    (hnd : (s.map (fun en => en.close)).Nodup) :
    (∀ en, uppermost s = some en →
      escapeHandler { key := "Escape", shiftKey := false } s en.close = true) ∧
    (∀ en, en ∈ s → uppermost s ≠ some en →
      escapeHandler { key := "Escape", shiftKey := false } s en.close = false) ∧
    (s = [] → ∀ c,
      escapeHandler { key := "Escape", shiftKey := false } s c = false) := by
  refine ⟨?_, ?_, ?_⟩
  · intro en hup
    simp [escapeHandler, hup]
  · intro en hmem hne
    have hs : s ≠ [] := List.ne_nil_of_mem hmem
    have hlast : s.getLast? = some (s.getLast hs) :=
      List.getLast?_eq_getLast_of_ne_nil hs
    have hl : s.getLast hs ∈ s := List.getLast_mem hs
    have hcc : (s.getLast hs).close ≠ en.close := by
      intro hc
      apply hne
      rw [uppermost, hlast,
        close_determines_entry hnd (s.getLast hs) hl en hmem hc]
    simp [escapeHandler, uppermost, hlast, hcc]
  · rintro rfl c
    rfl

/-- C1 witness: on the concrete two-entry stack with distinct callbacks 10
and 20, Escape invokes callback 20 of the topmost entry. -/
theorem escape_dismisses_topmost_only_w :
    escapeHandler { key := "Escape", shiftKey := false }
      [{ root := 1, close := 10, priorActive := none },
       { root := 2, close := 20, priorActive := none }] 20 = true :=
  (escape_dismisses_topmost_only
      [{ root := 1, close := 10, priorActive := none },
       { root := 2, close := 20, priorActive := none }] (by decide)).1
    { root := 2, close := 20, priorActive := none } (by decide)

/-- C2 counterexample: in the concrete state where roots 1 and 2 are both
attached and stacked in that order, re-registering the already-present
root 1 (fresh callback 11) leaves root 2 topmost — a JavaScript `Map`
keeps an existing key's insertion position on re-`set` — refuting the
claim that re-registration makes the dialog topmost again. -/
theorem reregister_existing_root_not_topmost_cex :
    ¬ ((uppermost (registerDialog [1, 2]
        [{ root := 1, close := 10, priorActive := none },
         { root := 2, close := 20, priorActive := none }] 1 11 none)).map
          (fun en => en.root) = some 1) := by
  decide

/-- C2 (amended): after any registration step, no surviving entry has a
detached root; a newly inserted root (a fresh mount, e.g. a reopened
dialog's new root element) becomes the topmost entry carrying the freshly
captured prior-focus element; and the surviving entry for the registered
root always holds the freshly supplied callback and prior-focus element —
but a re-registered already-present root keeps its original stack position
instead of becoming topmost. -/
theorem register_stack_invariants (doc : List Nat) (s : DialogStack)
    (root close : Nat) (prior : Option Elem) :
    (∀ en ∈ registerDialog doc s root close prior, en.root ∈ doc) ∧
    (s.any (fun en => en.root == root) = false → root ∈ doc →
      uppermost (registerDialog doc s root close prior) =
        some { root := root, close := close, priorActive := prior }) ∧
    (∀ en ∈ registerDialog doc s root close prior, en.root = root →
      en = { root := root, close := close, priorActive := prior }) := by
  refine ⟨?_, ?_, ?_⟩
  · intro en hen
    have hc := (List.mem_filter.mp hen).2
    exact List.elem_iff.mp (by simpa using hc)
  · intro hany hdoc
    have hc : (doc.contains root) = true := List.elem_iff.mpr hdoc
    simp [registerDialog, stackSet, hany, pruneDetached, uppermost,
      List.filter_append, hc, hdoc, List.getLast?_concat]
  · intro en hen hroot
    have hmem : en ∈ stackSet s root close prior :=
      (List.mem_filter.mp hen).1
    by_cases hany : s.any (fun x => x.root == root) = true
    · rw [stackSet, if_pos hany] at hmem
      obtain ⟨x, hx, hfx⟩ := List.mem_map.mp hmem
      by_cases hxr : (x.root == root) = true
      · rw [if_pos hxr] at hfx
        exact hfx.symm
      · rw [if_neg hxr] at hfx
        subst hfx
        exact absurd (by simpa using hroot) hxr
    · rw [stackSet, if_neg hany] at hmem
      rcases List.mem_append.mp hmem with hin | hnew
      · exact absurd (List.any_eq_true.mpr ⟨en, hin, by simpa using hroot⟩)
          hany
      · simpa using hnew

/-- C2 witness: registering the fresh root 3 (callback 30) while roots 1
and 3 are attached and root 2 is detached prunes the stale entry for
root 2 and makes root 3 the topmost entry with its fresh prior-focus
capture. -/
theorem register_stack_invariants_w :
    uppermost (registerDialog [1, 3]
      [{ root := 1, close := 10, priorActive := none },
       { root := 2, close := 20, priorActive := none }] 3 30
      (some { id := 7, tabIndex := 0 })) =
      some { root := 3, close := 30,
             priorActive := some { id := 7, tabIndex := 0 } } :=
  (register_stack_invariants [1, 3]
      [{ root := 1, close := 10, priorActive := none },
       { root := 2, close := 20, priorActive := none }] 3 30
      (some { id := 7, tabIndex := 0 })).2.1 (by decide) (by decide)

/-- C6: for an instance whose entry `en` is on the stack (with
pairwise-distinct stored callbacks): with `closeOnClickOutside` enabled, a
captured document-level click on a node outside the dialog invokes its
dismiss callback exactly when its entry is topmost; a non-`Node` target
never dismisses; with the flag disabled no click dismisses this instance,
while its Escape handling is untouched — Escape still invokes its callback
exactly when its entry is topmost. -/
theorem click_outside_topmost_spec (inst : InstanceConfig) (s : DialogStack)
    (en : StackEntry) (hnd : (s.map (fun x => x.close)).Nodup)
    (hen : en ∈ s) (hclose : en.close = inst.close) :
    (inst.closeOnClickOutside = true →
      ∀ t : Nat, (clickDismiss inst s (some t) = true ↔
        inst.containedNodes.contains t = false ∧ uppermost s = some en)) ∧
    (clickDismiss inst s none = false) ∧
    (inst.closeOnClickOutside = false →
      ∀ target, clickDismiss inst s target = false) ∧
    (escapeHandler { key := "Escape", shiftKey := false } s inst.close = true ↔
      uppermost s = some en) := by
  have hs : s ≠ [] := List.ne_nil_of_mem hen
  have hlast : s.getLast? = some (s.getLast hs) :=
    List.getLast?_eq_getLast_of_ne_nil hs
  have hl : s.getLast hs ∈ s := List.getLast_mem hs
  have hiff : ((s.getLast hs).close == inst.close) = true ↔
      uppermost s = some en := by
    constructor
    · intro hb
      have hceq : (s.getLast hs).close = en.close := by
        rw [hclose]
        exact beq_iff_eq.mp hb
      rw [uppermost, hlast,
        close_determines_entry hnd (s.getLast hs) hl en hen hceq]
    · intro hup
      rw [uppermost, hlast] at hup
      have hle : s.getLast hs = en := Option.some.inj hup
      rw [hle, hclose]
      exact beq_self_eq_true inst.close
  refine ⟨?_, ?_, ?_, ?_⟩
  · intro hon t
    cases hct : inst.containedNodes.contains t
    · have hmemt : t ∉ inst.containedNodes := by simpa using hct
      simpa [clickDismiss, hon, hct, uppermost, hlast, hmemt] using hiff
    · have hmemt : t ∈ inst.containedNodes := by simpa using hct
      simp [clickDismiss, hon, hct, uppermost, hlast, hmemt]
  · simp [clickDismiss]
  · intro hoff target
    simp [clickDismiss, hoff]
  · simpa [escapeHandler, uppermost, hlast] using hiff

/-- C6 witness: for the topmost instance (root 2, callback 20, outside
clicks enabled, containing nodes 2 and 5), a captured click on the outside
node 7 invokes its dismiss callback. -/
theorem click_outside_topmost_spec_w :
    clickDismiss
      { root := 2, close := 20, closeOnClickOutside := true,
        containedNodes := [2, 5] }
      [{ root := 1, close := 10, priorActive := none },
       { root := 2, close := 20, priorActive := none }] (some 7) = true :=
  ((click_outside_topmost_spec
      { root := 2, close := 20, closeOnClickOutside := true,
        containedNodes := [2, 5] }
      [{ root := 1, close := 10, priorActive := none },
       { root := 2, close := 20, priorActive := none }]
      { root := 2, close := 20, priorActive := none }
      (by decide) (by decide) rfl).1 rfl 7).mpr (by decide)

/-- Every focusable element of a dialog is one of its descendants, so under
the well-formedness assumption that the root is a distinct DOM node its id
differs from the root's. -/
theorem focusable_id_ne_root {d : DialogDom} {x : Elem}
    (hroot : d.root.id ∉ d.descendants.map (fun y => y.id))
    (hx : x ∈ focusableElements d) : x.id ≠ d.root.id := by
  intro hxe
  apply hroot
  rw [← hxe]
  exact List.mem_map_of_mem (fun y => y.id) (List.mem_filter.mp hx).1

/-- C3: over the freshly recomputed document-order focusable list of an
open dialog (with `first` and `last` its edges): forward Tab from the last
focusable descendant or from the dialog root moves focus to the first and
suppresses the default; Shift+Tab from the first focusable descendant or
from the root moves focus to the last; Tab on a non-edge focusable
descendant is not intercepted; and with exactly one focusable descendant,
Tab from it is an identity cycle back to it. -/
theorem trap_focus_cycles (d : DialogDom) (first last : Elem)
    (hroot : d.root.id ∉ d.descendants.map (fun y => y.id))
    (hfirst : (focusableElements d).head? = some first)
    (hlast : (focusableElements d).getLast? = some last) :
    trapFocus d (some last.id) { key := "Tab", shiftKey := false } =
      { focused := some first.id, prevented := true, threw := false } ∧
    trapFocus d (some d.root.id) { key := "Tab", shiftKey := false } =
      { focused := some first.id, prevented := true, threw := false } ∧
    trapFocus d (some first.id) { key := "Tab", shiftKey := true } =
      { focused := some last.id, prevented := true, threw := false } ∧
    trapFocus d (some d.root.id) { key := "Tab", shiftKey := true } =
      { focused := some last.id, prevented := true, threw := false } ∧
    (∀ x ∈ focusableElements d, x.id ≠ first.id → x.id ≠ last.id →
      ∀ sh, trapFocus d (some x.id) { key := "Tab", shiftKey := sh } =
        { focused := none, prevented := false, threw := false }) ∧
    (focusableElements d = [first] →
      trapFocus d (some first.id) { key := "Tab", shiftKey := false } =
        { focused := some first.id, prevented := true, threw := false }) := by
  refine ⟨?_, ?_, ?_, ?_, ?_, ?_⟩
  · simp [trapFocus, hfirst, hlast]
  · simp [trapFocus, hfirst, hlast]
  · simp [trapFocus, hfirst, hlast]
  · simp [trapFocus, hfirst, hlast]
  · intro x hx h1 h2 sh
    have hxr : x.id ≠ d.root.id := focusable_id_ne_root hroot hx
    cases sh <;> simp [trapFocus, hfirst, hlast, h1, h2, hxr]
  · intro hone
    have : last = first := by
      rw [hone] at hlast
      simpa using hlast.symm
    subst this
    simp [trapFocus, hfirst, hlast]

/-- C3 witness: in the dialog with root 0 and two focusable descendants 1
and 2 (tab index 0), forward Tab from the last one (id 2) moves focus to
the first one (id 1) and suppresses the default. -/
theorem trap_focus_cycles_w :
    trapFocus
      { root := { id := 0 },
        descendants := [{ id := 1, tabIndex := 0 }, { id := 2, tabIndex := 0 }] }
      (some 2) { key := "Tab", shiftKey := false } =
      { focused := some 1, prevented := true, threw := false } :=
  (trap_focus_cycles
      { root := { id := 0 },
        descendants := [{ id := 1, tabIndex := 0 }, { id := 2, tabIndex := 0 }] }
      { id := 1, tabIndex := 0 } { id := 2, tabIndex := 0 }
      (by decide) (by decide) (by decide)).1

/-- C8 counterexample: in a dialog with zero keyboard-focusable
descendants whose root (id 0) is the active element, a forward Tab
matches the `document.activeElement === dialog` edge guard and then calls
`.focus()` on `firstFocusableElement === undefined`, throwing a
`TypeError`: the handler does not terminate normally. -/
theorem trap_focus_throws_cex :
    (trapFocus { root := { id := 0 }, descendants := [] } (some 0)
      { key := "Tab", shiftKey := false }).threw = true := by
  decide

/-- C8 (amended): the `trapFocus` handler terminates without throwing on
every keydown provided the dialog has at least one keyboard-focusable
descendant; with zero focusable descendants the `.focus()` call can be
reached on `undefined` (see the counterexample), so the claim's zero-
descendant case is the one exception. -/
theorem trap_focus_no_throw (d : DialogDom) (a : Option Nat) (e : KeyEvent)
    (h : focusableElements d ≠ []) :
    (trapFocus d a e).threw = false := by
  rcases hx : (focusableElements d).head? with _ | f
  · exact absurd (List.head?_eq_none_iff.mp hx) h
  rcases hy : (focusableElements d).getLast? with _ | l
  · exact absurd (List.getLast?_eq_none_iff.mp hy) h
  by_cases hk : e.key = "Tab"
  · cases hsh : e.shiftKey <;>
      simp [trapFocus, hk, hsh, hx, hy] <;>
      split <;> rfl
  · simp [trapFocus, hk]

/-- C8 witness: in the dialog with one focusable descendant (id 1), a
forward Tab with focus on the root terminates without throwing. -/
theorem trap_focus_no_throw_w :
    (trapFocus { root := { id := 0 }, descendants := [{ id := 1, tabIndex := 0 }] }
      (some 0) { key := "Tab", shiftKey := false }).threw = false :=
  trap_focus_no_throw
    { root := { id := 0 }, descendants := [{ id := 1, tabIndex := 0 }] }
    (some 0) { key := "Tab", shiftKey := false } (by decide)

end DialogLib
